import Mathlib

/-!
Shallow embedding of the dynamic database-connection manager of
`mcp-server-motherduck` (files `server.py` and `database.py` of the package
`mcp_server_motherduck`), together with theorems settling the frozen claims
about its specification.

Conventions of the embedding:
* Python strings are Lean `String`s; Python `str.startswith` and string
  comparison are computed over `String.toList` so that every definition
  evaluates inside the kernel.
* `None`-able Python values are `Option`; Python truthiness of an optional
  string (`if tok:`) is `truthy` below (`None` and `""` are falsy).
* Raising an exception is returning `.error` in `Except`; the opaque DuckDB
  engine is a parameter: the outcome of `duckdb.connect` is an
  `Except String Nat` (a fresh handle id on success), the outcome of
  `conn.execute` / result rendering are `Except` parameters as well.
* `os.environ` is a lookup function `String → Option String`.
-/

namespace Motherduck

/-- Python truthiness of an optional string: `None` and the empty string are
falsy, every other string is truthy. -/
def truthy : Option String → Bool
  | some s => !s.isEmpty
  | none => false

/-- Python `s.startswith(p)`, computed over the character lists. -/
def strStartsWith (s p : String) : Bool :=
  p.toList.isPrefixOf s.toList

/-- The `db_type` tag returned by `_resolve_db_path_type`
(`"duckdb"` or `"motherduck"`). -/
inductive DbType
  | duckdb
  | motherduck
deriving DecidableEq

/-- Errors raised by `_resolve_db_path_type`:
`missingCredentials` is the `ValueError` asking for a MotherDuck token,
`pathNotFound` is the `FileNotFoundError` of `server.py` for a missing
local database file. -/
inductive ResolveError
  | missingCredentials
  | pathNotFound (path : String)
deriving DecidableEq

/-- `DatabaseClient._resolve_db_path_type` of `database.py`:
an `md:`-prefixed path needs a truthy token (the explicit argument first,
then the environment variable `motherduck_token`); with the explicit token
and `saas_mode` the URI additionally gets `&saas_mode=true`; every other
path (including `:memory:`) is returned unchanged as a `duckdb` target. -/
def resolve_db_path_type (db_path : String) (motherduck_token : Option String)
    (saas_mode : Bool) (env_token : Option String) :
    Except ResolveError (String × DbType) :=
  if strStartsWith db_path "md:" then
    if truthy motherduck_token then
      if saas_mode then
        .ok (db_path ++ "?motherduck_token=" ++ motherduck_token.getD ""
              ++ "&saas_mode=true", .motherduck)
      else
        .ok (db_path ++ "?motherduck_token=" ++ motherduck_token.getD "",
              .motherduck)
    else if truthy env_token then
      .ok (db_path ++ "?motherduck_token=" ++ env_token.getD "", .motherduck)
    else
      .error .missingCredentials
  else
    .ok (db_path, .duckdb)

/-- `DatabaseClient._resolve_db_path_type` of `server.py`: identical to the
`database.py` version on `md:` paths and on `:memory:`, but a remaining local
path must exist (`os.path.exists`, passed in as `path_exists`), otherwise
`FileNotFoundError` is raised. -/
def resolve_db_path_type_startup (db_path : String)
    (motherduck_token : Option String) (saas_mode : Bool)
    (env_token : Option String) (path_exists : String → Bool) :
    Except ResolveError (String × DbType) :=
  if strStartsWith db_path "md:" then
    if truthy motherduck_token then
      if saas_mode then
        .ok (db_path ++ "?motherduck_token=" ++ motherduck_token.getD ""
              ++ "&saas_mode=true", .motherduck)
      else
        .ok (db_path ++ "?motherduck_token=" ++ motherduck_token.getD "",
              .motherduck)
    else if truthy env_token then
      .ok (db_path ++ "?motherduck_token=" ++ env_token.getD "", .motherduck)
    else
      .error .missingCredentials
  else if db_path == ":memory:" then
    .ok (db_path, .duckdb)
  else if path_exists db_path then
    .ok (db_path, .duckdb)
  else
    .error (.pathNotFound db_path)

/-- Errors raised by `DatabaseClient._initialize_connection` of `server.py`:
`unsupportedReadOnlyMode` is the `ValueError` for read-only with a non-local
database, `connectionError` is a failure of the underlying
`duckdb.connect`. -/
inductive InitError
  | unsupportedReadOnlyMode
  | connectionError (msg : String)
deriving DecidableEq

/-- Observable outcome of `DatabaseClient._initialize_connection`:
the stored connection (`self.conn`, `none` in the read-only short-lived
mode), the SQL statements executed during initialization, and the engine
handles opened and closed. -/
structure InitTrace where
  conn : Option Nat
  statements : List String
  opened : List Nat
  closed : List Nat
deriving DecidableEq

/-- `DatabaseClient._initialize_connection` of `server.py`.
`connect` is the outcome of `duckdb.connect` for the resolved target.
With `db_type == "duckdb"` and read-only it connects, probes `SELECT 1`,
closes and stores no connection; any other read-only combination raises the
read-only-unsupported `ValueError`; otherwise it connects once and stores
the handle. -/
def initialize_connection (db_type : DbType) (read_only : Bool)
    (connect : Except String Nat) : Except InitError InitTrace :=
  if db_type == .duckdb && read_only then
    match connect with
    | .error e => .error (.connectionError e)
    | .ok h =>
        .ok { conn := none, statements := ["SELECT 1"], opened := [h],
              closed := [h] }
  else if read_only then
    .error .unsupportedReadOnlyMode
  else
    match connect with
    | .error e => .error (.connectionError e)
    | .ok h =>
        .ok { conn := some h, statements := [], opened := [h], closed := [] }

/-- The `result_format` literal of `server.py`. -/
inductive ResultFormat
  | markdown
  | duckbox
  | text
deriving DecidableEq

/-- The `DatabaseClient` of `server.py` after `__init__`. -/
structure Client where
  db_path : String
  db_type : DbType
  read_only : Bool
  conn : Option Nat
  result_format : ResultFormat
deriving DecidableEq

/-- Errors raised by `DatabaseClient.__init__` of `server.py`. -/
inductive ClientError
  | resolution (e : ResolveError)
  | init (e : InitError)
deriving DecidableEq

/-- `DatabaseClient.__init__` of `server.py`: resolve the path, then
initialize the connection, and store path, type, flags, connection and
format on the client. -/
def client_init (db_path : String) (motherduck_token : Option String)
    (result_format : ResultFormat) (saas_mode read_only : Bool)
    (env_token : Option String) (path_exists : String → Bool)
    (connect : Except String Nat) : Except ClientError (Client × InitTrace) :=
  match resolve_db_path_type_startup db_path motherduck_token saas_mode
      env_token path_exists with
  | .error e => .error (.resolution e)
  | .ok (path, db_type) =>
    match initialize_connection db_type read_only connect with
    | .error e => .error (.init e)
    | .ok tr =>
        .ok ({ db_path := path, db_type := db_type, read_only := read_only,
               conn := tr.conn, result_format := result_format }, tr)

instance {ε α : Type} [DecidableEq ε] [DecidableEq α] :
    DecidableEq (Except ε α) := fun a b =>
  match a, b with
  | .ok x, .ok y =>
      if h : x = y then isTrue (by rw [h])
      else isFalse (fun hh => h (by cases hh; rfl))
  | .error x, .error y =>
      if h : x = y then isTrue (by rw [h])
      else isFalse (fun hh => h (by cases hh; rfl))
  | .ok _, .error _ => isFalse (fun hh => Except.noConfusion hh)
  | .error _, .ok _ => isFalse (fun hh => Except.noConfusion hh)

/-- Observable outcome of one `_execute` call: the returned string or the
propagated exception, the handle the query ran on, and the handles opened
and closed during the call. -/
structure ExecTrace where
  result : Except String String
  usedConn : Option Nat
  opened : List Nat
  closed : List Nat
deriving DecidableEq

/-- `DatabaseClient._execute` of `server.py`. When `self.conn is None`
(the read-only short-lived mode) it opens a fresh connection (`connect`),
runs the query (`run`), renders the result (`render`), and only then — on
the success path — closes the fresh connection; an exception in `run` or
`render` propagates with the connection left open. With a stored
connection it runs and renders on that handle and closes nothing. -/
def server_execute (c : Client) (connect : Except String Nat)
    (run : Except String Unit) (render : Except String String) : ExecTrace :=
  match c.conn with
  | none =>
    match connect with
    | .error e => { result := .error e, usedConn := none, opened := [],
                    closed := [] }
    | .ok fresh =>
      match run with
      | .error e => { result := .error e, usedConn := some fresh,
                      opened := [fresh], closed := [] }
      | .ok _ =>
        match render with
        | .error e => { result := .error e, usedConn := some fresh,
                        opened := [fresh], closed := [] }
        | .ok out => { result := .ok out, usedConn := some fresh,
                       opened := [fresh], closed := [fresh] }
  | some h =>
    match run with
    | .error e => { result := .error e, usedConn := some h, opened := [],
                    closed := [] }
    | .ok _ =>
      match render with
      | .error e => { result := .error e, usedConn := some h, opened := [],
                      closed := [] }
      | .ok out => { result := .ok out, usedConn := some h, opened := [],
                     closed := [] }

/-- `DatabaseClient._execute` of `database.py`. A connection is opened
(`_connect_to_database`, outcome `connect`), the query is run (`run`) and
rendered with `tabulate` (`render`), and the `finally` block closes the
connection whenever one was opened, on the success path and on both
failure paths alike. -/
def database_execute (connect : Except String Nat) (run : Except String Unit)
    (render : Except String String) : ExecTrace :=
  match connect with
  | .error e => { result := .error e, usedConn := none, opened := [],
                  closed := [] }
  | .ok conn =>
    match run with
    | .error e => { result := .error e, usedConn := some conn,
                    opened := [conn], closed := [conn] }
    | .ok _ =>
      match render with
      | .error e => { result := .error e, usedConn := some conn,
                      opened := [conn], closed := [conn] }
      | .ok out => { result := .ok out, usedConn := some conn,
                     opened := [conn], closed := [conn] }

/-- `DatabaseClient.query` of `server.py`: run `_execute`, and re-raise any
exception as a `ValueError` whose message wraps the original one. -/
def server_query (c : Client) (connect : Except String Nat)
    (run : Except String Unit) (render : Except String String) :
    Except String String :=
  match (server_execute c connect run render).result with
  | .ok out => .ok out
  | .error e => .error ("❌ Error executing query: " ++ e)

/-- `DatabaseClient.query` of `database.py`: same wrapping around the
`database.py` `_execute`. -/
def database_query (connect : Except String Nat) (run : Except String Unit)
    (render : Except String String) : Except String String :=
  match (database_execute connect run render).result with
  | .ok out => .ok out
  | .error e => .error ("❌ Error executing query: " ++ e)

/-- Outcome of the `handle_tool_call` handler of `server.py`: a normal
list-of-text response, or the `ValueError` re-raised from the handler
(which the surrounding MCP framework reports to the caller as a tool
error without terminating the server process). -/
inductive ToolOutcome
  | response (texts : List String)
  | toolError (msg : String)
deriving DecidableEq

/-- `handle_tool_call` of `server.py` for the registered tools: the
`query` tool calls `DatabaseClient.query` on the query argument and wraps
any exception into a `ValueError` naming the tool; a missing argument bag
yields an error text response; unknown tool names yield an unsupported-tool
text response. -/
def handle_tool_call (name : String) (arguments : Option String) (c : Client)
    (connect : Except String Nat) (run : Except String Unit)
    (render : Except String String) : ToolOutcome :=
  if name == "query" then
    match arguments with
    | none => .response ["Error: No query provided"]
    | some _ =>
      match server_query c connect run render with
      | .ok out => .response [out]
      | .error e => .toolError ("Error executing tool " ++ name ++ ": " ++ e)
  else
    .response ["Unsupported tool: " ++ name]

/-- The sort key order of `list_available_databases` in `database.py`:
Python sorts `found_dbs` by the tuple `(x.count(os.sep), x)`, i.e. by
directory depth (number of `/` separators) first and lexicographically by
code point second. -/
def globKeyLe (a b : String) : Prop :=
  a.toList.count '/' < b.toList.count '/' ∨
    (a.toList.count '/' = b.toList.count '/' ∧ a.toList ≤ b.toList)

instance : DecidableRel globKeyLe := fun a b => by
  unfold globKeyLe; infer_instance

instance : IsTotal String globKeyLe where
  total a b := by
    unfold globKeyLe
    rcases Nat.lt_trichotomy (a.toList.count '/') (b.toList.count '/')
      with h | h | h
    · exact Or.inl (Or.inl h)
    · rcases le_total a.toList b.toList with h2 | h2
      · exact Or.inl (Or.inr ⟨h, h2⟩)
      · exact Or.inr (Or.inr ⟨h.symm, h2⟩)
    · exact Or.inr (Or.inl h)

instance : IsTrans String globKeyLe where
  trans a b c hab hbc := by
    unfold globKeyLe at *
    rcases hab with h | ⟨h1, h2⟩
    · rcases hbc with h' | ⟨h1', _⟩
      · exact Or.inl (h.trans h')
      · exact Or.inl (h1' ▸ h)
    · rcases hbc with h' | ⟨h1', h2'⟩
      · exact Or.inl (h1 ▸ h')
      · exact Or.inr ⟨h1.trans h1', h2.trans h2'⟩

/-- Python `os.path.relpath(p, cwd)` for the paths produced by the glob
scan, which are all below `cwd`: strip the leading `cwd + "/"`. -/
def relpath (cwd p : String) : String :=
  if (cwd ++ "/").toList.isPrefixOf p.toList then
    String.mk (p.toList.drop (cwd ++ "/").toList.length)
  else p

/-- `DatabaseClient.list_available_databases` of `database.py`, as the list
of appended items (the source joins them with a newline at the end).
`has_md_token` is the truthiness of `self._motherduck_token or
os.getenv("motherduck_token")`; `found_dbs` is the concatenated result of
the three recursive glob scans under `cwd`. -/
def list_available_databases_items (has_md_token : Bool) (cwd : String)
    (found_dbs : List String) : List String :=
  let databases :=
    (if has_md_token then
      ["📡 MotherDuck:\n  - md: (default MotherDuck database)\n  - md:database_name (specific MotherDuck database)"]
    else []) ++
    ["\n💾 Local options:\n  - :memory: (in-memory database)"]
  if found_dbs.isEmpty then databases
  else
    databases ++ ["\n📁 Local DuckDB files found:"] ++
      ((List.insertionSort globKeyLe found_dbs).take 20).map
        (fun db_file => "  - " ++ relpath cwd db_file) ++
      (if 20 < found_dbs.length then
        ["  ... and " ++ toString (found_dbs.length - 20) ++ " more files"]
      else [])

/-- `DatabaseClient.list_available_databases` of `database.py`:
the newline-joined listing. -/
def list_available_databases (has_md_token : Bool) (cwd : String)
    (found_dbs : List String) : String :=
  String.intercalate "\n" (list_available_databases_items has_md_token cwd found_dbs)

/-- Recognizer for the file entries of the discovery listing: exactly the
items appended inside the `for db_file in found_dbs[:20]` loop start with
the four characters of the `"  - "` label. -/
def isFileEntry (s : String) : Bool :=
  "  - ".toList.isPrefixOf s.toList

/-- `DatabaseClient.validate_database_path` of `database.py`:
`:memory:` and `*` are always valid; an `md:` path needs a truthy token
(argument or environment); an existing local path is valid; otherwise a
test connection (`test_connect`) decides. -/
def validate_database_path (db_path : String)
    (motherduck_token env_token : Option String)
    (path_exists : String → Bool) (test_connect : Except String Unit) :
    Except String Bool :=
  if db_path == ":memory:" || db_path == "*" then .ok true
  else if strStartsWith db_path "md:" then
    if truthy motherduck_token || truthy env_token then .ok true
    else .error "MotherDuck token required for md: paths. Set motherduck_token environment variable or pass --motherduck-token"
  else if path_exists db_path then .ok true
  else
    match test_connect with
    | .ok _ => .ok true
    | .error e => .error ("Cannot access database at " ++ db_path ++ ": " ++ e)

/-- Modelled from the spec: the per-session current target of the server.
The `set_database` and `get_database` tool handlers are not among the
source files (the `handle_tool_call` present in `server.py` dispatches only
the `query` tool, and `__init__.py` imports a `build_application` from a
server module that is not included); section 3 of the spec describes the
state as `current_target`, mutated only by `set_database`. -/
structure ServerState where
  current_target : String
deriving DecidableEq

/-- Modelled from the spec: the `set_database` tool handler, absent from
the included sources. Per sections 6 and 8 of the spec it validates the
new target (fails with a resolution error if the target is invalid) and
otherwise replaces `current_target` with exactly the given string. -/
def set_database (_state : ServerState) (target : String)
    (validate : String → Except String Bool) : Except String ServerState :=
  match validate target with
  | .ok _ => .ok { current_target := target }
  | .error e => .error e

/-- Modelled from the spec: the `get_database` tool handler, absent from
the included sources. Per section 6 of the spec it returns the current
target string and never fails, which the embedding reflects by being a
total function into `String`. -/
def get_database (state : ServerState) : String :=
  state.current_target

/-- The `HOME` mutation of `DatabaseClient.__init__` (lines 26-28 of
`database.py` and lines 36-38 of `server.py`): `if home_dir:
os.environ["HOME"] = home_dir` overwrites the process environment entry
when `home_dir` is truthy and leaves the environment untouched otherwise.
The environment is modelled as a lookup function. -/
def set_home_dir (home_dir : Option String)
    (env : String → Option String) : String → Option String :=
  if truthy home_dir then
    fun k => if k == "HOME" then home_dir else env k
  else env

/-- Occurrence of a character sequence inside another (used to state that a
resolved URI embeds the SaaS-mode marker). -/
def containsSeq (pat : List Char) : List Char → Bool
  | [] => pat.isEmpty
  | c :: rest => pat.isPrefixOf (c :: rest) || containsSeq pat rest

/-- The resolved URI embeds the SaaS-mode marker `&saas_mode=true`. -/
def hasSaasMarker (s : String) : Bool :=
  containsSeq "&saas_mode=true".toList s.toList

/-- Claim C1, counterexample: with `read_only = true` and the in-memory
target (whose engine mode is not a local file), construction does not fail
with the read-only-unsupported error: `:memory:` is classified as
`duckdb`, and `_initialize_connection` then follows the read-only local
branch (probe and close) instead of raising. -/
theorem readonly_inmemory_not_rejected :
    resolve_db_path_type_startup ":memory:" none false none (fun _ => false)
      = .ok (":memory:", .duckdb)
    ∧ initialize_connection .duckdb true (.ok 0)
      = .ok { conn := none, statements := ["SELECT 1"], opened := [0],
              closed := [0] }
    ∧ initialize_connection .duckdb true (.ok 0)
      ≠ .error .unsupportedReadOnlyMode := by
  refine ⟨rfl, rfl, ?_⟩
  decide

/-- Claim C1, amended: client construction fails with the
read-only-unsupported error exactly when the read-only flag is set and the
resolved target is the cloud (`motherduck`) type; the in-memory target is
classified as `duckdb` and takes the read-only local path instead. -/
theorem readonly_rejection_iff (db_type : DbType) (read_only : Bool)
    (connect : Except String Nat) :
    initialize_connection db_type read_only connect
        = .error .unsupportedReadOnlyMode
      ↔ (read_only = true ∧ db_type = .motherduck) := by
  cases db_type <;> cases read_only <;> cases connect <;>
    simp [initialize_connection]

/-- Claim C1, witness for the amended theorem: a cloud target with the
read-only flag is rejected at construction time. -/
theorem readonly_rejection_iff_witness :
    initialize_connection .motherduck true (.ok 0)
      = .error .unsupportedReadOnlyMode :=
  (readonly_rejection_iff .motherduck true (.ok 0)).mpr ⟨rfl, rfl⟩

/-- Claim C7, counterexample: when the persistent connection is
established at startup (read-only flag off), no validation statement is
executed — the `SELECT 1` probe exists only in the read-only branch, so
the statement trace of the persistent path is empty. -/
theorem persistent_startup_runs_no_probe :
    initialize_connection .duckdb false (.ok 0)
      = .ok { conn := some 0, statements := [], opened := [0], closed := [] }
    ∧ "SELECT 1" ∉ ({ conn := some 0, statements := [], opened := [0],
                      closed := [] } : InitTrace).statements := by
  exact ⟨rfl, by simp⟩

/-- Claim C7, amended: the `SELECT 1` validation statement is executed at
construction time exactly in the read-only local-duckdb configuration (the
ephemeral mode); the persistent path relies on the connect call alone. -/
theorem probe_only_in_readonly_path (db_type : DbType) (read_only : Bool)
    (connect : Except String Nat) (tr : InitTrace)
    (hok : initialize_connection db_type read_only connect = .ok tr) :
    "SELECT 1" ∈ tr.statements ↔ (db_type = .duckdb ∧ read_only = true) := by
  cases db_type <;> cases read_only <;> cases connect <;>
    simp [initialize_connection] at hok <;> subst hok <;> simp

/-- Claim C7, witness for the amended theorem: the read-only local
configuration does run the probe. -/
theorem probe_only_in_readonly_path_witness :
    initialize_connection .duckdb true (.ok 3)
      = .ok { conn := none, statements := ["SELECT 1"], opened := [3],
              closed := [3] }
    ∧ "SELECT 1" ∈ ({ conn := none, statements := ["SELECT 1"],
                      opened := [3], closed := [3] } : InitTrace).statements := by
  refine ⟨rfl, ?_⟩
  exact (probe_only_in_readonly_path .duckdb true (.ok 3) _ rfl).mpr ⟨rfl, rfl⟩

/-- Claim C3 (code bug): in the ephemeral path of `server.py`
(`_execute` with `self.conn is None`), the short-lived connection is
closed only on the success path — when query execution fails, and when
rendering fails, the `conn.close()` at the end of `_execute` is never
reached and the handle leaks; by contrast the `database.py` `_execute`
closes the handle in a `finally` block on the same failing input. -/
theorem ephemeral_close_skipped_on_failure :
    (server_execute
        { db_path := "local.db", db_type := .duckdb, read_only := true,
          conn := none, result_format := .markdown }
        (.ok 0) (.error "Parser Error: syntax error at end of input")
        (.ok "")).closed = []
    ∧ (server_execute
        { db_path := "local.db", db_type := .duckdb, read_only := true,
          conn := none, result_format := .markdown }
        (.ok 0) (.ok ()) (.error "render failure")).closed = []
    ∧ (database_execute (.ok 0)
        (.error "Parser Error: syntax error at end of input")
        (.ok "")).closed = [0]
    ∧ (database_execute (.ok 0) (.ok ()) (.error "render failure")).closed
        = [0] := by
  exact ⟨rfl, rfl, rfl, rfl⟩

/-- Claim C4: for a cloud-prefixed identifier, resolution fails with the
missing-credentials error exactly when neither the explicit token argument
nor the environment token is set to a non-empty string; when the explicit
argument is set, the resolved URI is built from it (the environment token
does not occur in the result), and the startup resolver of `server.py`
agrees with the `database.py` resolver on cloud-prefixed identifiers. -/
theorem cloud_token_resolution (db_path : String)
    (motherduck_token : Option String) (saas_mode : Bool)
    (env_token : Option String)
    (hp : strStartsWith db_path "md:" = true) :
    (resolve_db_path_type db_path motherduck_token saas_mode env_token
        = .error .missingCredentials
      ↔ truthy motherduck_token = false ∧ truthy env_token = false)
    ∧ (truthy motherduck_token = true →
        resolve_db_path_type db_path motherduck_token saas_mode env_token
          = .ok ((if saas_mode then
                    db_path ++ "?motherduck_token="
                      ++ motherduck_token.getD "" ++ "&saas_mode=true"
                  else
                    db_path ++ "?motherduck_token="
                      ++ motherduck_token.getD ""), .motherduck))
    ∧ (∀ path_exists,
        resolve_db_path_type_startup db_path motherduck_token saas_mode
            env_token path_exists
          = resolve_db_path_type db_path motherduck_token saas_mode
              env_token) := by
  cases harg : truthy motherduck_token <;> cases henv : truthy env_token <;>
    cases saas_mode <;>
      simp [resolve_db_path_type, resolve_db_path_type_startup, hp, harg,
        henv]

/-- Claim C4, witness: with both tokens set the explicit argument wins,
and with neither set resolution fails with the missing-credentials
error. -/
theorem cloud_token_resolution_witness :
    strStartsWith "md:db" "md:" = true
    ∧ resolve_db_path_type "md:db" (some "argtok") false (some "envtok")
        = .ok ("md:db?motherduck_token=argtok", .motherduck)
    ∧ resolve_db_path_type "md:" none false none
        = .error .missingCredentials := by
  refine ⟨rfl, ?_, ?_⟩
  · exact (cloud_token_resolution "md:db" (some "argtok") false
      (some "envtok") rfl).2.1 rfl
  · exact (cloud_token_resolution "md:" none false none rfl).1.mpr ⟨rfl, rfl⟩

/-- Claim C5, counterexample: a cloud identifier resolved with `saas_mode`
set but with the token coming from the environment fallback succeeds, and
its resolved URI does not embed the SaaS-mode marker — the
`&saas_mode=true` suffix is appended only inside the explicit-argument
branch of `_resolve_db_path_type`. -/
theorem saas_marker_missing_for_env_token :
    resolve_db_path_type "md:" none true (some "envtok")
      = .ok ("md:?motherduck_token=envtok", .motherduck)
    ∧ hasSaasMarker "md:?motherduck_token=envtok" = false := by
  exact ⟨rfl, by decide⟩

/-- Claim C5, amended: with `saas_mode` set, the resolved URI embeds the
SaaS-mode marker exactly when the token comes from the explicit argument;
with the environment-fallback token the URI is the raw identifier plus the
token query and no marker is appended. -/
theorem saas_marker_only_with_arg_token (db_path : String)
    (motherduck_token : Option String) (env_token : Option String)
    (hp : strStartsWith db_path "md:" = true) :
    (truthy motherduck_token = true →
      resolve_db_path_type db_path motherduck_token true env_token
        = .ok (db_path ++ "?motherduck_token=" ++ motherduck_token.getD ""
            ++ "&saas_mode=true", .motherduck))
    ∧ (truthy motherduck_token = false → truthy env_token = true →
      resolve_db_path_type db_path motherduck_token true env_token
        = .ok (db_path ++ "?motherduck_token=" ++ env_token.getD "",
            .motherduck)) := by
  cases harg : truthy motherduck_token <;>
    cases henv : truthy env_token <;>
      simp [resolve_db_path_type, hp, harg, henv]

/-- Claim C5, witness for the amended theorem: with the explicit token the
marker is embedded. -/
theorem saas_marker_only_with_arg_token_witness :
    resolve_db_path_type "md:" (some "argtok") true (some "envtok")
      = .ok ("md:?motherduck_token=argtok&saas_mode=true", .motherduck)
    ∧ hasSaasMarker "md:?motherduck_token=argtok&saas_mode=true" = true := by
  constructor
  · exact (saas_marker_only_with_arg_token "md:" (some "argtok")
      (some "envtok") rfl).1 rfl
  · decide

/-- Claim C10, counterexample: constructing the client with the non-`None`
home directory `some ""` does not overwrite `HOME` — the guard is Python
truthiness, so the empty string leaves the environment unchanged, against
the claim that every non-`None` value overwrites. -/
theorem empty_home_dir_not_applied :
    set_home_dir (some "")
        (fun k => if k == "HOME" then some "/root" else none) "HOME"
      = some "/root"
    ∧ (some "/root" : Option String) ≠ some "" := by
  exact ⟨rfl, by decide⟩

/-- Claim C10, amended: a truthy (non-`None` and non-empty) `home_dir`
overwrites the process-wide `HOME` entry with exactly that value and
changes no other key; a falsy `home_dir` (`None` or the empty string)
leaves the whole environment unchanged. -/
theorem home_dir_truthy_overwrite (home_dir : Option String)
    (env : String → Option String) :
    (truthy home_dir = true →
      set_home_dir home_dir env "HOME" = home_dir
      ∧ ∀ k, k ≠ "HOME" → set_home_dir home_dir env k = env k)
    ∧ (truthy home_dir = false → set_home_dir home_dir env = env) := by
  cases ht : truthy home_dir <;> simp [set_home_dir, ht]
  intro k hk
  simp [hk]

/-- Claim C10, witness for the amended theorem: a truthy home directory is
written to `HOME`. -/
theorem home_dir_truthy_overwrite_witness :
    truthy (some "/home/duck") = true
    ∧ set_home_dir (some "/home/duck") (fun _ => none) "HOME"
        = some "/home/duck" := by
  refine ⟨rfl, ?_⟩
  exact ((home_dir_truthy_overwrite (some "/home/duck") (fun _ => none)).1
    rfl).1

/-- Claim C2: when the client is constructed without the read-only flag,
exactly one engine handle is opened at startup, it is stored as the
client connection, and every subsequent `_execute` call runs on that
stored handle and opens no new handle. -/
theorem persistent_connection_reused (db_path : String)
    (motherduck_token : Option String) (result_format : ResultFormat)
    (saas_mode : Bool) (env_token : Option String)
    (path_exists : String → Bool) (h0 : Nat) (c : Client) (tr : InitTrace)
    (hinit : client_init db_path motherduck_token result_format saas_mode
        false env_token path_exists (.ok h0) = .ok (c, tr)) :
    tr.opened = [h0] ∧ c.conn = some h0 ∧
      ∀ connect2 run render,
        (server_execute c connect2 run render).opened = []
        ∧ (server_execute c connect2 run render).usedConn = some h0 := by
  cases hres : resolve_db_path_type_startup db_path motherduck_token
      saas_mode env_token path_exists with
  | error e =>
    rw [client_init, hres] at hinit
    exact absurd hinit (by simp)
  | ok pr =>
    obtain ⟨path, dt⟩ := pr
    have hic : initialize_connection dt false (.ok h0)
        = .ok { conn := some h0, statements := [], opened := [h0],
                closed := [] } := by
      cases dt <;> rfl
    rw [client_init, hres] at hinit
    simp only [hic, Except.ok.injEq, Prod.mk.injEq] at hinit
    obtain ⟨hc, ht⟩ := hinit
    subst hc
    subst ht
    refine ⟨rfl, rfl, ?_⟩
    intro connect2 run render
    cases run <;> cases render <;> simp [server_execute]

/-- Claim C2, witness: a concrete non-read-only construction opens handle
7 once, stores it, and a failing query afterwards still runs on handle 7
and opens nothing new. -/
theorem persistent_connection_reused_witness :
    client_init ":memory:" none .markdown false false none (fun _ => false)
        (.ok 7)
      = .ok ({ db_path := ":memory:", db_type := .duckdb,
               read_only := false, conn := some 7,
               result_format := .markdown },
             { conn := some 7, statements := [], opened := [7],
               closed := [] })
    ∧ ({ conn := some 7, statements := [], opened := [7],
         closed := [] } : InitTrace).opened = [7]
    ∧ (server_execute
        { db_path := ":memory:", db_type := .duckdb, read_only := false,
          conn := some 7, result_format := .markdown }
        (.ok 9) (.error "boom") (.ok "rendered")).opened = []
    ∧ (server_execute
        { db_path := ":memory:", db_type := .duckdb, read_only := false,
          conn := some 7, result_format := .markdown }
        (.ok 9) (.error "boom") (.ok "rendered")).usedConn = some 7 := by
  have h := persistent_connection_reused ":memory:" none .markdown false
    none (fun _ => false) 7 _ _ rfl
  exact ⟨rfl, h.1, (h.2.2 (.ok 9) (.error "boom") (.ok "rendered")).1,
    (h.2.2 (.ok 9) (.error "boom") (.ok "rendered")).2⟩

/-- Claim C6 (spec-modelled handlers): setting the database to a target
that validates successfully and then reading it back returns exactly that
target; `get_database` is a total function and never fails. -/
theorem set_get_database_roundtrip (st st2 : ServerState) (target : String)
    (validate : String → Except String Bool)
    (hset : set_database st target validate = .ok st2) :
    get_database st2 = target := by
  unfold set_database at hset
  split at hset
  · injection hset with h
    rw [← h]
    rfl
  · exact Except.noConfusion hset

/-- Claim C6, witness: setting the always-valid `:memory:` target (checked
with the `validate_database_path` of `database.py`) and reading back
returns `:memory:`. -/
theorem set_get_database_roundtrip_witness :
    set_database { current_target := "md:" } ":memory:"
        (fun t => validate_database_path t none none (fun _ => false)
          (.ok ()))
      = .ok { current_target := ":memory:" }
    ∧ get_database { current_target := ":memory:" } = ":memory:" := by
  refine ⟨rfl, ?_⟩
  exact set_get_database_roundtrip { current_target := "md:" } _ ":memory:"
    (fun t => validate_database_path t none none (fun _ => false) (.ok ()))
    rfl

/-- Claim C8: when query execution fails at the engine level, the tool
call handler returns the caught-and-rewrapped `ValueError` outcome whose
message carries the original engine message (wrapped first by
`DatabaseClient.query`, then by `handle_tool_call`); the failure is a
value of the handler, not an uncaught exception, for every client state
in which the query is actually run (a stored connection, or a fresh
connection that opened successfully). -/
theorem engine_failure_wrapped (c : Client) (connect : Except String Nat)
    (q e : String) (render : Except String String)
    (hconn : c.conn ≠ none ∨ ∃ n, connect = .ok n) :
    handle_tool_call "query" (some q) c connect (.error e) render
      = .toolError ("Error executing tool " ++ "query" ++ ": "
          ++ ("❌ Error executing query: " ++ e)) := by
  rcases hc : c.conn with _ | h
  · rcases hconn with hne | ⟨n, hn⟩
    · exact absurd hc hne
    · subst hn
      simp [handle_tool_call, server_query, server_execute, hc]
  · simp [handle_tool_call, server_query, server_execute, hc]

/-- Claim C8, witness: a catalog error surfaces as the wrapped tool-error
outcome carrying the original message. -/
theorem engine_failure_wrapped_witness :
    handle_tool_call "query" (some "SELECT * FROM missing")
        { db_path := ":memory:", db_type := .duckdb, read_only := false,
          conn := some 1, result_format := .markdown }
        (.ok 0) (.error "Catalog Error: Table missing does not exist")
        (.ok "")
      = .toolError ("Error executing tool " ++ "query" ++ ": "
          ++ ("❌ Error executing query: "
              ++ "Catalog Error: Table missing does not exist")) := by
  exact engine_failure_wrapped _ _ _ _ _ (Or.inl (by simp))

theorem isFileEntry_label (s : String) :
    isFileEntry ("  - " ++ s) = true := by
  show (' ' :: ' ' :: '-' :: ' ' :: []).isPrefixOf
    (' ' :: ' ' :: '-' :: ' ' :: s.toList) = true
  simp [List.isPrefixOf]

theorem isFileEntry_more_line (x : String) :
    isFileEntry ("  ... and " ++ x ++ " more files") = false := by
  show (' ' :: ' ' :: '-' :: ' ' :: []).isPrefixOf
    ((' ' :: ' ' :: '.' :: '.' :: '.' :: ' ' :: 'a' :: 'n' :: 'd' :: ' '
        :: x.toList) ++ " more files".toList) = false
  simp [List.isPrefixOf]

/-- Claim C9: the discovery listing always contains the local-options item
with the in-memory entry; the scanned files are sorted by directory depth
first and lexicographically second; the file entries of the listing are
exactly the labels of the first 20 sorted files (so never more than 20,
and `min n 20` of them for `n` found files); and when more than 20 files
are found, a summary item naming the number of omitted files is in the
listing. -/
theorem discovery_listing (has_md_token : Bool) (cwd : String)
    (found_dbs : List String) :
    "\n💾 Local options:\n  - :memory: (in-memory database)"
      ∈ list_available_databases_items has_md_token cwd found_dbs
    ∧ List.Sorted globKeyLe (List.insertionSort globKeyLe found_dbs)
    ∧ (list_available_databases_items has_md_token cwd found_dbs).filter
        isFileEntry
      = ((List.insertionSort globKeyLe found_dbs).take 20).map
          (fun db_file => "  - " ++ relpath cwd db_file)
    ∧ ((list_available_databases_items has_md_token cwd
          found_dbs).filter isFileEntry).length
      = min found_dbs.length 20
    ∧ (20 < found_dbs.length →
        ("  ... and " ++ toString (found_dbs.length - 20) ++ " more files")
          ∈ list_available_databases_items has_md_token cwd found_dbs) := by
  have hmd : isFileEntry "📡 MotherDuck:\n  - md: (default MotherDuck database)\n  - md:database_name (specific MotherDuck database)" = false := by
    decide
  have hloc : isFileEntry "\n💾 Local options:\n  - :memory: (in-memory database)" = false := by
    decide
  have hhdr : isFileEntry "\n📁 Local DuckDB files found:" = false := by
    decide
  have hmap : (((List.insertionSort globKeyLe found_dbs).take 20).map
      (fun db_file => "  - " ++ relpath cwd db_file)).filter isFileEntry
      = ((List.insertionSort globKeyLe found_dbs).take 20).map
          (fun db_file => "  - " ++ relpath cwd db_file) := by
    apply List.filter_eq_self.mpr
    intro a ha
    obtain ⟨f, _, rfl⟩ := List.mem_map.mp ha
    exact isFileEntry_label _
  have hfil : (list_available_databases_items has_md_token cwd
      found_dbs).filter isFileEntry
      = ((List.insertionSort globKeyLe found_dbs).take 20).map
          (fun db_file => "  - " ++ relpath cwd db_file) := by
    by_cases hfe : found_dbs.isEmpty = true
    · have h0 : found_dbs = [] := List.isEmpty_iff.mp hfe
      subst h0
      cases has_md_token <;>
        simp [list_available_databases_items, hmd, hloc]
    · by_cases h20 : 20 < found_dbs.length <;>
        cases has_md_token <;>
          simp [list_available_databases_items, hfe, h20,
            List.filter_append, hmd, hloc, hhdr, hmap,
            isFileEntry_more_line] <;>
          · intro a ha
            obtain ⟨f, _, rfl⟩ := List.mem_map.mp (List.mem_of_mem_take ha)
            exact isFileEntry_label _
  refine ⟨?_, List.sorted_insertionSort globKeyLe found_dbs, hfil, ?_, ?_⟩
  · by_cases hfe : found_dbs.isEmpty = true <;>
      cases has_md_token <;>
        simp [list_available_databases_items, hfe]
  · rw [hfil, List.length_map, List.length_take,
      List.length_insertionSort, Nat.min_comm]
  · intro h20
    have hfe : ¬ (found_dbs.isEmpty = true) := by
      intro h
      rw [List.isEmpty_iff.mp h] at h20
      exact absurd h20 (by decide)
    cases has_md_token <;>
      simp [list_available_databases_items, hfe, h20]

/-- A concrete directory scan result with 25 database files, for the
discovery-cap witness. -/
def twenty_five_dbs : List String :=
  ["a.db", "b.db", "c.db", "d.db", "e.db", "f.db", "g.db", "h.db", "i.db",
   "j.db", "k.db", "l.db", "m.db", "n.db", "o.db", "p.db", "q.db", "r.db",
   "s.db", "t.db", "u.db", "v.db", "w.db", "x.db", "y.db"]

/-- Claim C9, witness: with 25 matching files the listing has exactly 20
file entries and contains the summary item naming the 5 omitted files. -/
theorem discovery_listing_witness :
    ((list_available_databases_items false "" twenty_five_dbs).filter
        isFileEntry).length = 20
    ∧ "  ... and 5 more files"
        ∈ list_available_databases_items false "" twenty_five_dbs := by
  constructor
  · exact (discovery_listing false "" twenty_five_dbs).2.2.2.1
  · exact (discovery_listing false "" twenty_five_dbs).2.2.2.2 (by decide)

end Motherduck
